import Mathlib

/-!
Verification of the bootstrap configuration subsystem
(`src/python/pants/init/options_initializer.py`).

The Python module is shallowly embedded below:
* machine state that the Python code mutates (the class-level build-configuration
  cache of `BuildConfigInitializer`, the process-wide `sys.path` list, and the
  call counters one would observe on test doubles of the external collaborators)
  is threaded explicitly through a `CacheState` value;
* the external collaborators (plugin resolver, backend/plugin activator, full
  option parser, global-options validator) are fields of explicit environment
  records, so theorems quantify over their behaviour;
* Python exceptions become `Except PantsError` results; the distinct Python
  exception classes become constructors of `PantsError`;
* Python string/path manipulation is reproduced over `List Char` so that every
  definition evaluates by kernel reduction.
-/

/-- Errors raised by the embedded code.  `unknownFlags` models
`pants.option.errors.UnknownFlagsError`, `buildConfigurationError` models
`pants.base.exceptions.BuildConfigurationError`, `valueError` models Python's
`ValueError`, and `unboundLocalError` models Python's `UnboundLocalError`
(raised when a local variable is referenced before assignment).  The remaining
constructors stand for arbitrary errors of the external collaborators. -/
inductive PantsError where
  | unknownFlags (flags : List String)
  | buildConfigurationError (msg : String)
  | valueError (msg : String)
  | unboundLocalError (var : String)
  | resolutionError (msg : String)
  | validationError (msg : String)
deriving DecidableEq, Repr

/-- The global-scope option value container
(`options_bootstrapper.get_bootstrap_options().for_global_scope()`): the fixed,
well-known set of bootstrap option values read by this module. -/
structure OptionValueContainer where
  pants_version : String := ""
  pythonpath : List String := []
  plugins : List String := []
  backend_packages : List String := []
  pants_ignore : List String := []
  pants_workdir : String := ""
  pants_distdir : String := ""
  pants_subprocessdir : String := ""
  rule_threads_core : Int := 0
  rule_threads_max : Option Int := none
  pants_config_files : List String := []
  pantsd_invalidation_globs : List String := []
deriving DecidableEq, Repr

/-- A registered optionable of a `BuildConfiguration`; only its
`known_scope_infos()` method is used by this module.  Scope infos are kept
abstract as strings. -/
structure Optionable where
  known_scope_infos : List String := []
deriving DecidableEq, Repr

/-- `pants.build_graph.build_configuration.BuildConfiguration`: only its
`all_optionables` attribute is used by this module. -/
structure BuildConfiguration where
  all_optionables : List Optionable := []
deriving DecidableEq, Repr

/-- The fully parsed options value produced by the option-parsing engine;
opaque to this module except for `for_global_scope()`, which is kept abstract
as a number identifying the global-scope view. -/
structure Options where
  for_global_scope : Nat := 0
deriving DecidableEq, Repr

/-- The working set produced by the plugin resolver; opaque to this module. -/
structure WorkingSet where
  id : Nat := 0
deriving DecidableEq, Repr

/-- `pants.option.options_bootstrapper.OptionsBootstrapper`, as used by this
module: it carries the raw argument list (`args`, replaced by
`dataclasses.replace` in the recovery flow), and its two methods used here.
`get_bootstrap_options` models `get_bootstrap_options().for_global_scope()`
and `get_full_options` models `get_full_options(known_scope_infos)`; both
recompute from the current `args`, which is why they are functions of the
argument list. -/
structure OptionsBootstrapper where
  args : List String
  get_bootstrap_options : List String → OptionValueContainer
  get_full_options : List String → List String → Except PantsError Options

/-- Environment of external collaborators used by `OptionsInitializer.create`:
the running tool version (`pants_version()` from
`pants.base.build_environment`) and `GlobalOptions.validate_instance`. -/
structure CreateEnv where
  pants_version : String
  validate_instance : Nat → Except PantsError Unit

/-- Environment of external collaborators used by `BuildConfigInitializer`:
`PluginResolver(options_bootstrapper).resolve()` and
`pants.init.extension_loader.load_backends_and_plugins` (called with the
plugin names, the working set and the backend package names, in that order). -/
structure CacheEnv where
  resolve : OptionsBootstrapper → Except PantsError WorkingSet
  load_backends_and_plugins :
    List String → WorkingSet → List String → Except PantsError BuildConfiguration

/-- The mutable process state touched by `BuildConfigInitializer`: the
class-level `_cached_build_config` attribute, the process-wide `sys.path`
list, and observation counters for the two external collaborator calls
(resolution in `__init__`, activation in `setup`), as a test double of the
collaborators would record them. -/
structure CacheState where
  cached : Option BuildConfiguration := none
  sys_path : List String := []
  resolver_calls : Nat := 0
  activator_calls : Nat := 0
deriving DecidableEq, Repr

/-- Events recorded by `OptionsInitializer.create` and the unknown-flag
recovery flow, in program order: collecting the known scope infos from the
build configuration, the full option parse, the global-options validation,
and the diagnostic generation of `FlagErrorHelpPrinter.handle_unknown_flags`. -/
inductive Event where
  | collectedScopes
  | fullParse
  | validated
  | diagnostic
deriving DecidableEq, Repr

/-- `BuildConfigInitializer.get`: on a cache hit returns the cached value and
touches nothing; otherwise runs `cls(options_bootstrapper).setup()` — i.e.
reads the bootstrap options, resolves the plugin working set, appends the
bootstrap `pythonpath` entries not already present to `sys.path`, and invokes
`load_backends_and_plugins` — caching the result only when the whole
construction succeeds. -/
def BuildConfigInitializer.get (cenv : CacheEnv) (options_bootstrapper : OptionsBootstrapper)
    (st : CacheState) : CacheState × Except PantsError BuildConfiguration :=
  match st.cached with
  | some bc => (st, .ok bc)
  | none =>
    let bootstrap_options := options_bootstrapper.get_bootstrap_options options_bootstrapper.args
    let st1 := { st with resolver_calls := st.resolver_calls + 1 }
    match cenv.resolve options_bootstrapper with
    | .error e => (st1, .error e)
    | .ok working_set =>
      let new_sys_path :=
        bootstrap_options.pythonpath.foldl
          (fun acc path => if path ∈ acc then acc else acc ++ [path]) st1.sys_path
      let st2 := { st1 with
        sys_path := new_sys_path, activator_calls := st1.activator_calls + 1 }
      match cenv.load_backends_and_plugins
          bootstrap_options.plugins working_set bootstrap_options.backend_packages with
      | .error e => (st2, .error e)
      | .ok build_config => ({ st2 with cached := some build_config }, .ok build_config)

/-- `BuildConfigInitializer.reset`: clears the class-level cache. -/
def BuildConfigInitializer.reset (st : CacheState) : CacheState :=
  { st with cached := none }

deriving instance DecidableEq for Except

/-- `OptionsInitializer.compute_executor_arguments`. -/
def OptionsInitializer.compute_executor_arguments (bootstrap_options : OptionValueContainer) :
    Except PantsError (Int × Int) :=
  if bootstrap_options.rule_threads_core < 2 then
    .error (.valueError "--rule-threads-core values less than 2 are not supported.")
  else
    let rule_threads_max :=
      match bootstrap_options.rule_threads_max with
      | some v => if v ≠ 0 then v else 4 * bootstrap_options.rule_threads_core
      | none => 4 * bootstrap_options.rule_threads_core
    .ok (bootstrap_options.rule_threads_core, rule_threads_max)

/-- Boolean prefix test over the underlying character lists
(Python's `str.startswith`). -/
def strStartsWith (p s : String) : Bool :=
  p.data.isPrefixOf s.data

/-- Python's `str.rstrip(os.path.sep)` on POSIX: strip all trailing
`'/'` characters. -/
def rstripSlashes (s : String) : String :=
  String.mk ((s.data.reverse.dropWhile (fun c => c == '/')).reverse)

/-- Modelled from the spec: `pants.util.dirutil.fast_relpath_optional` is not
under `src/` (only its caller is).  Per the spec of ignore-glob computation it
computes the path of `path` relative to `start` by pure prefix matching,
returning `none` exactly when `path` cannot be expressed relative to `start`
(it "lies outside the build root").  A trailing slash on `start` is ignored;
a path equal to the build root relativizes to the empty string. -/
def fast_relpath_optional (path start : String) : Option String :=
  if start = "" then some path
  else
    let pref :=
      if start.data.getLast? = some '/' then String.mk start.data.dropLast else start
    if path = pref then some ""
    else if (pref.data ++ ['/']).isPrefixOf path.data then
      some (String.mk (path.data.drop (pref.data.length + 1)))
    else none

/-- The inner `add` closure of `OptionsInitializer.compute_pants_ignore`:
append `prefix + "/" + rel_path` to the accumulated list when the path is
relativizable to a non-empty relative path (Python's truthiness test
`if maybe_rel_path:` rejects both `None` and the empty string), stripping
trailing separators first.  `incl` is the `include` keyword parameter, always
left at its default `False` by the three call sites. -/
def addIgnoreEntry (buildroot : String) (pants_ignore : List String)
    (absolute_path : String) (incl : Bool) : List String :=
  match fast_relpath_optional absolute_path buildroot with
  | some maybe_rel_path =>
    if maybe_rel_path ≠ "" then
      let rel_path := rstripSlashes maybe_rel_path
      let mark := if incl then "!" else ""
      pants_ignore ++ [mark ++ "/" ++ rel_path]
    else pants_ignore
  | none => pants_ignore

/-- `OptionsInitializer.compute_pants_ignore`: the user ignore patterns,
then the workdir, distdir and subprocess-dir entries in that order. -/
def OptionsInitializer.compute_pants_ignore (buildroot : String)
    (global_options : OptionValueContainer) : List String :=
  let pants_ignore := global_options.pants_ignore
  let pants_ignore := addIgnoreEntry buildroot pants_ignore global_options.pants_workdir false
  let pants_ignore := addIgnoreEntry buildroot pants_ignore global_options.pants_distdir false
  let pants_ignore := addIgnoreEntry buildroot pants_ignore global_options.pants_subprocessdir false
  pants_ignore

/-- Split a character list at `'/'` separators, accumulating the current
component in reverse. -/
def splitComponentsAux : List Char → List Char → List (List Char)
  | [], acc => [acc.reverse]
  | '/' :: rest, acc => acc.reverse :: splitComponentsAux rest []
  | c :: rest, acc => splitComponentsAux rest (c :: acc)

/-- The non-empty path components of a path string. -/
def pathComponents (p : String) : List String :=
  ((splitComponentsAux p.data []).map String.mk).filter (fun c => c ≠ "")

/-- Length of the longest common prefix of two component lists. -/
def commonPrefixLen : List String → List String → Nat
  | a :: as, b :: bs => if a = b then commonPrefixLen as bs + 1 else 0
  | _, _ => 0

/-- Modelled from the spec: Python's `os.path.relpath` is standard-library
code, not under `src/`.  Per the spec it is a pure lexical relativization:
split both paths into their non-empty components, drop the longest common
component prefix, and join one parent-directory traversal per remaining
component of the start path with the remaining components of the target path;
two equal paths relativize to `"."`. -/
def relpath (path start : String) : String :=
  let path_list := pathComponents path
  let start_list := pathComponents start
  let i := commonPrefixLen start_list path_list
  let rel_list := List.replicate (start_list.length - i) ".." ++ path_list.drop i
  if rel_list = [] then "." else String.intercalate "/" rel_list

/-- `OrderedSet.add` of `pants.util.ordered_set`: append the element unless
already present (insertion-ordered deduplication). -/
def orderedInsert (l : List String) (x : String) : List String :=
  if x ∈ l then l else l ++ [x]

/-- `OrderedSet.update`: add each element in order. -/
def orderedUpdate (l : List String) (xs : List String) : List String :=
  xs.foldl orderedInsert l

/-- `OptionsInitializer.compute_pantsd_invalidation_globs`.  The ambient
`sys.path` of the process is passed explicitly as `sys_path`. -/
def OptionsInitializer.compute_pantsd_invalidation_globs (sys_path : List String)
    (buildroot : String) (bootstrap_options : OptionValueContainer) : List String :=
  let potentially_absolute_globs :=
    sys_path ++ bootstrap_options.pythonpath ++ bootstrap_options.pants_config_files
  let invalidation_globs :=
    potentially_absolute_globs.foldl
      (fun invalidation_globs glob =>
        let glob_relpath := relpath glob buildroot
        if glob_relpath = "." ∨ strStartsWith ".." glob_relpath = true then
          invalidation_globs
        else
          orderedUpdate invalidation_globs [glob_relpath, glob_relpath ++ "/**"])
      []
  orderedUpdate invalidation_globs
    (["!*.pyc", "!__pycache__/", "requirements.txt", "3rdparty/**/requirements.txt"]
      ++ bootstrap_options.pantsd_invalidation_globs)

/-- First-seen-order deduplication: keep the first occurrence of each element
and remove the later ones. -/
def dedupFirstSeen : List String → List String
  | [] => []
  | x :: xs => x :: dedupFirstSeen (xs.filter (fun y => decide (y ≠ x)))
termination_by l => l.length
decreasing_by
  simp only [List.length_cons]
  exact Nat.lt_succ_of_le (List.length_filter_le _ _)

/-- The invalidation-glob computation restated in the words of the spec:
process the current module search paths, then the extra search paths, then
the config file paths; an entry whose lexical relativization to the build
root is `"."` or begins with a parent traversal contributes nothing, every
other entry contributes its relative path and the relative path followed by
`"/**"`; append the fixed literal tail and the user globs; return the whole
sequence deduplicated in first-seen order. -/
def specInvalidationGlobs (sys_path : List String) (buildroot : String)
    (bootstrap_options : OptionValueContainer) : List String :=
  let entries := sys_path ++ bootstrap_options.pythonpath ++ bootstrap_options.pants_config_files
  let contributions :=
    entries.flatMap (fun glob =>
      let r := relpath glob buildroot
      if r = "." ∨ strStartsWith ".." r = true then [] else [r, r ++ "/**"])
  dedupFirstSeen
    (contributions
      ++ (["!*.pyc", "!__pycache__/", "requirements.txt", "3rdparty/**/requirements.txt"]
            ++ bootstrap_options.pantsd_invalidation_globs))

/-- `OptionsInitializer.create`: checks the declared version against the
running version before anything else, then collects the known scope infos
from the build configuration, runs the full option parse and validates the
global scope.  The returned event list records, in order, which of those
steps executed. -/
def OptionsInitializer.create (env : CreateEnv) (options_bootstrapper : OptionsBootstrapper)
    (build_configuration : BuildConfiguration) : List Event × Except PantsError Options :=
  let global_bootstrap_options :=
    options_bootstrapper.get_bootstrap_options options_bootstrapper.args
  if global_bootstrap_options.pants_version ≠ env.pants_version then
    ([], .error (.buildConfigurationError
      ("Version mismatch: Requested version was " ++ global_bootstrap_options.pants_version
        ++ ", our version is " ++ env.pants_version ++ ".")))
  else
    let known_scope_infos :=
      (build_configuration.all_optionables.map (fun o => o.known_scope_infos)).flatten
    match options_bootstrapper.get_full_options options_bootstrapper.args known_scope_infos with
    | .error e => ([.collectedScopes, .fullParse], .error e)
    | .ok options =>
      match env.validate_instance options.for_global_scope with
      | .error e => ([.collectedScopes, .fullParse], .error e)
      | .ok _ => ([.collectedScopes, .fullParse, .validated], .ok options)

/-- `OptionsInitializer.handle_unknown_flags`, applied to the result of its
body (the `yield` point): on success or on a non-`UnknownFlagsError` error it
is transparent; on an `UnknownFlagsError` it re-obtains the (cached) build
configuration, rebuilds options from a bootstrapper whose `args` are replaced
by the single token `"dummy_first_arg"`, generates the diagnostic with
`FlagErrorHelpPrinter` (recorded as `Event.diagnostic`), then re-raises the
original error iff `raise_` is set; a suppressed error yields `ok none`,
i.e. the body produced no `Options` value. -/
def OptionsInitializer.handle_unknown_flags (cenv : CacheEnv) (env : CreateEnv)
    (options_bootstrapper : OptionsBootstrapper) (raise_ : Bool) (st : CacheState)
    (body : List Event × Except PantsError Options) :
    CacheState × List Event × Except PantsError (Option Options) :=
  match body with
  | (evs, .ok options) => (st, evs, .ok (some options))
  | (evs, .error (.unknownFlags flags)) =>
    match BuildConfigInitializer.get cenv options_bootstrapper st with
    | (st2, .error e2) => (st2, evs, .error e2)
    | (st2, .ok build_config) =>
      let no_arg_bootstrapper := { options_bootstrapper with args := ["dummy_first_arg"] }
      match OptionsInitializer.create env no_arg_bootstrapper build_config with
      | (evs2, .error e3) => (st2, evs ++ evs2, .error e3)
      | (evs2, .ok _options) =>
        let evs3 := evs ++ evs2 ++ [Event.diagnostic]
        if raise_ then (st2, evs3, .error (.unknownFlags flags))
        else (st2, evs3, .ok none)
  | (evs, .error e) => (st, evs, .error e)

/-- A concrete build configuration used to exercise the unknown-flag recovery
flow. -/
def bcW1 : BuildConfiguration := {}

/-- A concrete bootstrapper whose argument list contains one unrecognized
flag: the full parse fails with `UnknownFlagsError` on the original `args`
and succeeds once the recovery flow has replaced them with
`"dummy_first_arg"`. -/
def obW1 : OptionsBootstrapper :=
  { args := ["--bad-flag"]
    get_bootstrap_options := fun _ => { pants_version := "2.6.0" }
    get_full_options := fun args _ =>
      if args = ["--bad-flag"] then .error (.unknownFlags ["--bad-flag"]) else .ok {} }

/-- A concrete collaborator environment whose running version matches
`obW1`'s declared version and whose validator accepts everything. -/
def envW1 : CreateEnv :=
  { pants_version := "2.6.0", validate_instance := fun _ => .ok () }

/-- A concrete cache environment whose resolver and activator both succeed. -/
def cenvW1 : CacheEnv :=
  { resolve := fun _ => .ok {}, load_backends_and_plugins := fun _ _ _ => .ok {} }

/-- A cache state already holding `bcW1`. -/
def stW1 : CacheState := { cached := some bcW1 }

/-- A concrete bootstrapper declaring version `"2.5.0"`. -/
def obW2 : OptionsBootstrapper :=
  { args := []
    get_bootstrap_options := fun _ => { pants_version := "2.5.0" }
    get_full_options := fun _ _ => .ok {} }

/-- A concrete environment whose running version is `"2.6.0"`. -/
def envW2 : CreateEnv :=
  { pants_version := "2.6.0", validate_instance := fun _ => .ok () }

/-- A cache environment with succeeding collaborators, used to exercise the
first-call-wins behaviour of the cache. -/
def cenvW3 : CacheEnv :=
  { resolve := fun _ => .ok {}, load_backends_and_plugins := fun _ _ _ => .ok {} }

/-- Two distinct concrete bootstrappers, to show the cache ignores the input
of the second call. -/
def obW3a : OptionsBootstrapper :=
  { args := ["first"]
    get_bootstrap_options := fun _ => { pants_version := "2.6.0" }
    get_full_options := fun _ _ => .ok {} }

/-- See `obW3a`. -/
def obW3b : OptionsBootstrapper :=
  { args := ["second", "completely", "different"]
    get_bootstrap_options := fun _ => { pants_version := "0.0.1", plugins := ["p"] }
    get_full_options := fun _ _ => .error (.unknownFlags ["x"]) }

/-- The cache state after the first successful `get` from the empty state. -/
def stW3 : CacheState :=
  { cached := some {}, sys_path := [], resolver_calls := 1, activator_calls := 1 }

/-- A cache environment whose plugin resolver fails. -/
def cenvW4 : CacheEnv :=
  { resolve := fun _ => .error (.resolutionError "resolver exploded")
    load_backends_and_plugins := fun _ _ _ => .ok {} }

/-- A plain bootstrapper for the failing-resolution scenario. -/
def obW4 : OptionsBootstrapper :=
  { args := []
    get_bootstrap_options := fun _ => { pants_version := "2.6.0" }
    get_full_options := fun _ _ => .ok {} }

/-- `OptionsInitializer.create_with_build_config`: obtain the (cached) build
configuration, run `create` inside `handle_unknown_flags`, and return both
values.  When the recovery flow suppressed the error, the local `options` was
never assigned, so the final `return build_config, options` raises Python's
`UnboundLocalError`. -/
def OptionsInitializer.create_with_build_config (cenv : CacheEnv) (env : CreateEnv)
    (options_bootstrapper : OptionsBootstrapper) (raise_ : Bool) (st : CacheState) :
    CacheState × List Event × Except PantsError (BuildConfiguration × Options) :=
  match BuildConfigInitializer.get cenv options_bootstrapper st with
  | (st1, .error e) => (st1, [], .error e)
  | (st1, .ok build_config) =>
    match OptionsInitializer.handle_unknown_flags cenv env options_bootstrapper raise_ st1
        (OptionsInitializer.create env options_bootstrapper build_config) with
    | (st2, evs, .error e) => (st2, evs, .error e)
    | (st2, evs, .ok (some options)) => (st2, evs, .ok (build_config, options))
    | (st2, evs, .ok none) => (st2, evs, .error (.unboundLocalError "options"))

/-! ## Helper lemmas -/

/-- A cache hit returns the cached value and leaves the state untouched. -/
theorem get_of_cached (cenv : CacheEnv) (ob : OptionsBootstrapper) (st : CacheState)
    (bc : BuildConfiguration) (h : st.cached = some bc) :
    BuildConfigInitializer.get cenv ob st = (st, .ok bc) := by
  unfold BuildConfigInitializer.get
  rw [h]

/-- A successful `get` leaves the returned build configuration in the cache. -/
theorem get_ok_cached (cenv : CacheEnv) (ob : OptionsBootstrapper) (st st' : CacheState)
    (bc : BuildConfiguration) (h : BuildConfigInitializer.get cenv ob st = (st', .ok bc)) :
    st'.cached = some bc := by
  unfold BuildConfigInitializer.get at h
  cases hc : st.cached with
  | some bc0 =>
    rw [hc] at h
    injection h with h1 h2
    injection h2 with h2
    rw [← h1, hc, h2]
  | none =>
    rw [hc] at h
    simp only at h
    cases hr : cenv.resolve ob with
    | error e => rw [hr] at h; injection h with h1 h2; exact absurd h2 (by simp)
    | ok ws =>
      rw [hr] at h
      simp only at h
      cases hl : cenv.load_backends_and_plugins
          (ob.get_bootstrap_options ob.args).plugins ws
          (ob.get_bootstrap_options ob.args).backend_packages with
      | error e => rw [hl] at h; injection h with h1 h2; exact absurd h2 (by simp)
      | ok bc' =>
        rw [hl] at h
        injection h with h1 h2
        injection h2 with h2
        rw [← h1, h2]

/-- Any construction attempt (cache miss) performs exactly one plugin
resolution, whatever its outcome. -/
theorem get_resolver_calls (cenv : CacheEnv) (ob : OptionsBootstrapper) (st : CacheState)
    (h : st.cached = none) :
    (BuildConfigInitializer.get cenv ob st).1.resolver_calls = st.resolver_calls + 1 := by
  unfold BuildConfigInitializer.get
  rw [h]
  cases hr : cenv.resolve ob with
  | error e => simp [hr]
  | ok ws =>
    cases hl : cenv.load_backends_and_plugins
        (ob.get_bootstrap_options ob.args).plugins ws
        (ob.get_bootstrap_options ob.args).backend_packages with
    | error e => simp [hr, hl]
    | ok bc' => simp [hr, hl]

/-- `OptionsInitializer.create` never generates a diagnostic event
(diagnostics belong to the recovery flow only). -/
theorem create_no_diagnostic (env : CreateEnv) (ob : OptionsBootstrapper)
    (bc : BuildConfiguration) :
    Event.diagnostic ∉ (OptionsInitializer.create env ob bc).1 := by
  unfold OptionsInitializer.create
  by_cases hv : (ob.get_bootstrap_options ob.args).pants_version ≠ env.pants_version
  · rw [if_pos hv]; simp
  · rw [if_neg hv]
    cases hf : ob.get_full_options ob.args
        ((bc.all_optionables.map (fun o => o.known_scope_infos)).flatten) with
    | error e => simp [hf]
    | ok options =>
      cases hval : env.validate_instance options.for_global_scope with
      | error e => simp [hf, hval]
      | ok u => simp [hf, hval]

/-! ## Claim theorems -/

/-- C2: for every bootstrap input whose declared pants version differs from
the running tool's version, `OptionsInitializer.create` fails with a
`BuildConfigurationError` whose message names both the requested and the
running version, and the failure happens before any scope is collected from
the build configuration and before any full parse is attempted (the recorded
event trace is empty). -/
theorem create_version_mismatch (env : CreateEnv) (ob : OptionsBootstrapper)
    (bc : BuildConfiguration)
    (h : (ob.get_bootstrap_options ob.args).pants_version ≠ env.pants_version) :
    OptionsInitializer.create env ob bc =
      ([], .error (.buildConfigurationError
        ("Version mismatch: Requested version was "
          ++ (ob.get_bootstrap_options ob.args).pants_version
          ++ ", our version is " ++ env.pants_version ++ "."))) := by
  unfold OptionsInitializer.create
  rw [if_pos h]

/-- Witness for C2 at a concrete mismatching input. -/
theorem create_version_mismatch_witness :
    ((obW2.get_bootstrap_options obW2.args).pants_version ≠ envW2.pants_version)
    ∧ OptionsInitializer.create envW2 obW2 {} =
        ([], .error (.buildConfigurationError
          ("Version mismatch: Requested version was "
            ++ (obW2.get_bootstrap_options obW2.args).pants_version
            ++ ", our version is " ++ envW2.pants_version ++ "."))) :=
  ⟨by decide, create_version_mismatch envW2 obW2 {} (by decide)⟩

/-- C3: after a first successful `get`, a second `get` without an intervening
`reset` — with any (equal or different) bootstrap input — returns the
identical `BuildConfiguration` and leaves the state exactly unchanged, so it
performs no plugin resolution, no search-path mutation and no activation
work: the cache is first-call-wins, not content-addressed. -/
theorem cache_first_call_wins (cenv : CacheEnv) (ob1 ob2 : OptionsBootstrapper)
    (st0 st1 : CacheState) (bc : BuildConfiguration)
    (h : BuildConfigInitializer.get cenv ob1 st0 = (st1, .ok bc)) :
    BuildConfigInitializer.get cenv ob2 st1 = (st1, .ok bc) :=
  get_of_cached cenv ob2 st1 bc (get_ok_cached cenv ob1 st0 st1 bc h)

/-- Witness for C3: a concrete first call from the empty state followed by a
second call with a completely different bootstrapper. -/
theorem cache_first_call_wins_witness :
    BuildConfigInitializer.get cenvW3 obW3a {} = (stW3, .ok {})
    ∧ BuildConfigInitializer.get cenvW3 obW3b stW3 = (stW3, .ok {}) :=
  ⟨by decide, cache_first_call_wins cenvW3 obW3a obW3b {} stW3 {} (by decide)⟩

/-- C4: on a first (uncached) `get`, an error of the plugin resolver or of
the activator propagates to the caller unmodified and the cache stays unset;
consequently a subsequent `get` performs the construction (one more plugin
resolution) again.  No partially constructed value is ever cached. -/
theorem cache_failure_atomic (cenv : CacheEnv) (ob : OptionsBootstrapper)
    (st : CacheState) (h0 : st.cached = none) :
    (∀ e, cenv.resolve ob = .error e →
      BuildConfigInitializer.get cenv ob st =
        ({ st with resolver_calls := st.resolver_calls + 1 }, .error e))
    ∧ (∀ ws e, cenv.resolve ob = .ok ws →
        cenv.load_backends_and_plugins (ob.get_bootstrap_options ob.args).plugins ws
          (ob.get_bootstrap_options ob.args).backend_packages = .error e →
        (BuildConfigInitializer.get cenv ob st).2 = .error e
          ∧ (BuildConfigInitializer.get cenv ob st).1.cached = none)
    ∧ ((BuildConfigInitializer.get cenv ob st).1.cached = none →
        (BuildConfigInitializer.get cenv ob
            ((BuildConfigInitializer.get cenv ob st).1)).1.resolver_calls
          = st.resolver_calls + 2) := by
  refine ⟨?_, ?_, ?_⟩
  · intro e he
    unfold BuildConfigInitializer.get
    rw [h0]
    simp [he]
  · intro ws e hws he
    unfold BuildConfigInitializer.get
    rw [h0]
    simp [hws, he, h0]
  · intro h1
    rw [get_resolver_calls cenv ob _ h1, get_resolver_calls cenv ob st h0]

/-- Witness for C4 at a concrete environment whose resolver fails. -/
theorem cache_failure_atomic_witness :
    (({} : CacheState).cached = none)
    ∧ cenvW4.resolve obW4 = .error (.resolutionError "resolver exploded")
    ∧ BuildConfigInitializer.get cenvW4 obW4 {} =
        ({ ({} : CacheState) with resolver_calls := 1 }, .error (.resolutionError "resolver exploded")) :=
  ⟨rfl, rfl, (cache_failure_atomic cenvW4 obW4 {} rfl).1 _ rfl⟩

/-- C5 (counterexample): the claim asserts that every minimum `≥ 2` with a
supplied maximum returns the pair verbatim; but `compute_executor_arguments`
tests the supplied maximum for Python truthiness, so a supplied maximum of
`0` yields `(2, 8)` — the default `4 × minimum` — and not `(2, 0)`. -/
theorem executor_arguments_zero_max_counterexample :
    OptionsInitializer.compute_executor_arguments
        { rule_threads_core := 2, rule_threads_max := some 0 } = .ok (2, 8)
    ∧ OptionsInitializer.compute_executor_arguments
        { rule_threads_core := 2, rule_threads_max := some 0 } ≠ .ok (2, 0) := by
  decide

/-- C5 (amended): `compute_executor_arguments` fails with a configuration
error (a `ValueError` in the code) for every minimum below 2; with minimum 2
and no maximum supplied it returns `(2, 8)` (the maximum defaulting to four
times the minimum); and for every minimum `≥ 2` with a supplied **nonzero**
maximum it returns the pair `(minimum, maximum)` verbatim — in particular
`(3, some 10)` returns `(3, 10)`. -/
theorem executor_arguments_spec (bo : OptionValueContainer) :
    (bo.rule_threads_core < 2 →
      OptionsInitializer.compute_executor_arguments bo =
        .error (.valueError "--rule-threads-core values less than 2 are not supported."))
    ∧ (¬ bo.rule_threads_core < 2 → ∀ m : Int, bo.rule_threads_max = some m → m ≠ 0 →
        OptionsInitializer.compute_executor_arguments bo = .ok (bo.rule_threads_core, m))
    ∧ OptionsInitializer.compute_executor_arguments { rule_threads_core := 2 } = .ok (2, 8)
    ∧ OptionsInitializer.compute_executor_arguments
        { rule_threads_core := 3, rule_threads_max := some 10 } = .ok (3, 10) := by
  refine ⟨?_, ?_, by decide, by decide⟩
  · intro h
    unfold OptionsInitializer.compute_executor_arguments
    rw [if_pos h]
  · intro h m hm hm0
    unfold OptionsInitializer.compute_executor_arguments
    rw [if_neg h, hm]
    simp [hm0]

/-- Witness for C5's amended universal parts: minimum 1 fails, and
`(3, some 10)` is returned verbatim. -/
theorem executor_arguments_spec_witness :
    (((1 : Int) < 2)
      ∧ OptionsInitializer.compute_executor_arguments { rule_threads_core := 1 } =
          .error (.valueError "--rule-threads-core values less than 2 are not supported."))
    ∧ ((¬ (3 : Int) < 2) ∧ ((10 : Int) ≠ 0)
      ∧ OptionsInitializer.compute_executor_arguments
          { rule_threads_core := 3, rule_threads_max := some 10 } = .ok (3, 10)) :=
  ⟨⟨by decide, (executor_arguments_spec { rule_threads_core := 1 }).1 (by decide)⟩,
   ⟨by decide, by decide,
     (executor_arguments_spec { rule_threads_core := 3, rule_threads_max := some 10 }).2.1
       (by decide) 10 rfl (by decide)⟩⟩

/-- C9: `compute_executor_arguments` treats a supplied maximum of `0` (the
only falsy `int` in Python) as if no maximum were supplied, returning
`(minimum, 4 × minimum)`; only a nonzero supplied maximum is returned
unchanged. -/
theorem executor_arguments_falsy_max (bo : OptionValueContainer)
    (h2 : ¬ bo.rule_threads_core < 2) :
    (bo.rule_threads_max = some 0 →
      OptionsInitializer.compute_executor_arguments bo =
        .ok (bo.rule_threads_core, 4 * bo.rule_threads_core))
    ∧ (bo.rule_threads_max = none →
      OptionsInitializer.compute_executor_arguments bo =
        .ok (bo.rule_threads_core, 4 * bo.rule_threads_core))
    ∧ (∀ m : Int, bo.rule_threads_max = some m → m ≠ 0 →
      OptionsInitializer.compute_executor_arguments bo = .ok (bo.rule_threads_core, m)) := by
  refine ⟨?_, ?_, ?_⟩
  · intro hm
    unfold OptionsInitializer.compute_executor_arguments
    rw [if_neg h2, hm]
    simp
  · intro hm
    unfold OptionsInitializer.compute_executor_arguments
    rw [if_neg h2, hm]
  · intro m hm hm0
    unfold OptionsInitializer.compute_executor_arguments
    rw [if_neg h2, hm]
    simp [hm0]

/-- Witness for C9: minimum 2 with supplied maximum 0 yields `(2, 8)`, the
same as supplying no maximum at all. -/
theorem executor_arguments_falsy_max_witness :
    (¬ (2 : Int) < 2)
    ∧ OptionsInitializer.compute_executor_arguments
        { rule_threads_core := 2, rule_threads_max := some 0 } = .ok (2, 8) :=
  ⟨by decide,
    (executor_arguments_falsy_max { rule_threads_core := 2, rule_threads_max := some 0 }
      (by decide)).1 rfl⟩

/-- The `add` step appends at most one entry: nothing when the path is not
relativizable or relativizes to the empty string, and the marked slash-rooted
stripped relative path otherwise. -/
theorem addIgnoreEntry_false_eq (buildroot p : String) (acc : List String) :
    addIgnoreEntry buildroot acc p false
      = acc ++ (match fast_relpath_optional p buildroot with
                | none => []
                | some r => if r = "" then [] else ["/" ++ rstripSlashes r]) := by
  unfold addIgnoreEntry
  cases h : fast_relpath_optional p buildroot with
  | none => simp
  | some r =>
    by_cases hr : r = ""
    · simp [hr]
    · simp [hr]

/-- A path relativizes against itself to the empty string (it is not
`none`, i.e. not "outside", but it is empty). -/
theorem fast_relpath_optional_self (s : String) : fast_relpath_optional s s = some "" := by
  unfold fast_relpath_optional
  by_cases h0 : s = ""
  · rw [if_pos h0, h0]
  · rw [if_neg h0]
    by_cases h1 : s.data.getLast? = some '/'
    · rw [if_pos h1]
      have hne : s.data ≠ [] := by
        intro hnil
        rw [hnil] at h1
        simp at h1
      have hlastc : s.data.getLast hne = '/' := by
        have := List.getLast?_eq_getLast s.data hne
        rw [this] at h1
        injection h1
      have hdata : s.data.dropLast ++ ['/'] = s.data := by
        conv_lhs => rw [← hlastc]
        exact List.dropLast_append_getLast hne
      have hpos : 0 < s.data.length := List.length_pos.mpr hne
      have hsp : s ≠ String.mk s.data.dropLast := by
        intro he
        have hd : s.data = s.data.dropLast := congrArg String.data he
        have hl := congrArg List.length hd
        rw [List.length_dropLast] at hl
        omega
      rw [if_neg hsp]
      have hpref : ((String.mk s.data.dropLast).data ++ ['/']).isPrefixOf s.data = true := by
        show (s.data.dropLast ++ ['/']).isPrefixOf s.data = true
        rw [hdata]
        exact List.isPrefixOf_iff_prefix.mpr (List.prefix_refl _)
      rw [if_pos hpref]
      have hlen : (String.mk s.data.dropLast).data.length + 1 = s.data.length := by
        show s.data.dropLast.length + 1 = s.data.length
        rw [List.length_dropLast]
        omega
      rw [hlen, List.drop_length]
    · rw [if_neg h1, if_pos rfl]

/-- C6: `compute_pants_ignore` returns the user ignore entries first,
followed by, for the workdir then the distdir then the subprocess dir in that
fixed order, the entry `"/" ++` (path relative to the build root, trailing
separators stripped), with no inclusion marker, omitting any of the three
whose path cannot be expressed as a (proper) descendant of the build root;
in particular with build root `/r`, workdir `/r/.work`, distdir
`/outside/dist`, subprocess dir `/r/.pants.d/pids` and user ignores
`["foo"]` it returns `["foo", "/.work", "/.pants.d/pids"]`. -/
theorem compute_pants_ignore_claim :
    (∀ (buildroot : String) (go : OptionValueContainer),
      OptionsInitializer.compute_pants_ignore buildroot go
        = go.pants_ignore
            ++ ([go.pants_workdir, go.pants_distdir, go.pants_subprocessdir].flatMap
                 (fun p => match fast_relpath_optional p buildroot with
                           | none => []
                           | some r => if r = "" then [] else ["/" ++ rstripSlashes r])))
    ∧ OptionsInitializer.compute_pants_ignore "/r"
        { pants_ignore := ["foo"], pants_workdir := "/r/.work",
          pants_distdir := "/outside/dist", pants_subprocessdir := "/r/.pants.d/pids" }
        = ["foo", "/.work", "/.pants.d/pids"] := by
  constructor
  · intro buildroot go
    simp only [OptionsInitializer.compute_pants_ignore, addIgnoreEntry_false_eq,
      List.flatMap_cons, List.flatMap_nil, List.append_nil, List.append_assoc]
  · decide

/-- C8: a special directory whose absolute path is exactly the build root
relativizes to the empty string — `fast_relpath_optional` does not report it
as outside (`none`) — yet the Python truthiness test `if maybe_rel_path:`
treats the empty string like the outside case, so no entry is appended for
it: with all three special directories equal to the build root the result is
exactly the user ignore list. -/
theorem compute_pants_ignore_buildroot_skipped :
    (∀ s : String, fast_relpath_optional s s = some "")
    ∧ (∀ (buildroot : String) (uig : List String),
        OptionsInitializer.compute_pants_ignore buildroot
          { pants_ignore := uig, pants_workdir := buildroot,
            pants_distdir := buildroot, pants_subprocessdir := buildroot } = uig) := by
  refine ⟨fast_relpath_optional_self, ?_⟩
  intro buildroot uig
  simp only [OptionsInitializer.compute_pants_ignore, addIgnoreEntry_false_eq,
    fast_relpath_optional_self]
  simp

/-- Everything in the first-seen deduplication was in the input. -/
theorem mem_of_mem_dedupFirstSeen {a : String} :
    ∀ {l : List String}, a ∈ dedupFirstSeen l → a ∈ l := by
  intro l
  induction l using dedupFirstSeen.induct with
  | case1 => simp [dedupFirstSeen]
  | case2 x xs ih =>
    rw [dedupFirstSeen]
    intro h
    rcases List.mem_cons.mp h with h | h
    · exact h ▸ List.mem_cons_self x xs
    · exact List.mem_cons_of_mem x (List.mem_of_mem_filter (ih h))

/-- First-seen deduplication produces a duplicate-free list. -/
theorem nodup_dedupFirstSeen : ∀ l : List String, (dedupFirstSeen l).Nodup := by
  intro l
  induction l using dedupFirstSeen.induct with
  | case1 => simp [dedupFirstSeen]
  | case2 x xs ih =>
    rw [dedupFirstSeen]
    refine List.nodup_cons.mpr ⟨?_, ih⟩
    intro hmem
    have hx := List.mem_filter.mp (mem_of_mem_dedupFirstSeen hmem)
    simp at hx

/-- Folding `OrderedSet.add` over a list appends exactly the first-seen
deduplication of the not-yet-present elements. -/
theorem foldl_orderedInsert_eq :
    ∀ (l acc : List String),
      List.foldl orderedInsert acc l
        = acc ++ dedupFirstSeen (l.filter (fun x => decide (x ∉ acc))) := by
  intro l
  induction l with
  | nil => intro acc; simp [dedupFirstSeen]
  | cons x xs ih =>
    intro acc
    simp only [List.foldl_cons]
    rw [ih (orderedInsert acc x)]
    by_cases hx : x ∈ acc
    · have h1 : orderedInsert acc x = acc := by simp [orderedInsert, hx]
      rw [h1, List.filter_cons]
      simp [hx]
    · have h1 : orderedInsert acc x = acc ++ [x] := by simp [orderedInsert, hx]
      rw [h1, List.filter_cons]
      have hdx : decide (x ∉ acc) = true := by simp [hx]
      rw [if_pos hdx, dedupFirstSeen]
      have hfilters :
          xs.filter (fun y => decide (y ∉ acc ++ [x]))
            = (xs.filter (fun y => decide (y ∉ acc))).filter (fun y => decide (y ≠ x)) := by
        rw [List.filter_filter]
        refine List.filter_congr ?_
        intro y _
        by_cases h1' : y = x
        · subst h1'
          simp
        · by_cases h2 : y ∈ acc <;> simp [h1', h2]
      rw [hfilters]
      simp [List.append_assoc]

/-- First-seen deduplication is the fold of `OrderedSet.add` from the empty
set. -/
theorem dedupFirstSeen_eq_foldl (l : List String) :
    dedupFirstSeen l = List.foldl orderedInsert [] l := by
  rw [foldl_orderedInsert_eq]
  have hfil : l.filter (fun x => decide (x ∉ ([] : List String))) = l := by
    refine List.filter_eq_self.mpr ?_
    intro a _
    simp
  rw [hfil, List.nil_append]

/-- The per-entry fold of `compute_pantsd_invalidation_globs` is the fold of
`OrderedSet.add` over the flattened per-entry contributions. -/
theorem foldl_invalidation_eq (buildroot : String) :
    ∀ (entries acc : List String),
      entries.foldl (fun invalidation_globs glob =>
          if relpath glob buildroot = "." ∨ strStartsWith ".." (relpath glob buildroot) = true
          then invalidation_globs
          else orderedUpdate invalidation_globs
                 [relpath glob buildroot, relpath glob buildroot ++ "/**"]) acc
        = List.foldl orderedInsert acc (entries.flatMap (fun glob =>
            if relpath glob buildroot = "." ∨ strStartsWith ".." (relpath glob buildroot) = true
            then []
            else [relpath glob buildroot, relpath glob buildroot ++ "/**"])) := by
  intro entries
  induction entries with
  | nil => intro acc; simp
  | cons g gs ih =>
    intro acc
    simp only [List.foldl_cons, List.flatMap_cons, List.foldl_append]
    rw [ih]
    congr 1
    by_cases hc : relpath g buildroot = "." ∨ strStartsWith ".." (relpath g buildroot) = true
    · simp [hc]
    · simp [hc, orderedUpdate]

/-- `compute_pantsd_invalidation_globs` equals its specification restatement
`specInvalidationGlobs`. -/
theorem compute_pantsd_eq_spec (sys_path : List String) (buildroot : String)
    (bo : OptionValueContainer) :
    OptionsInitializer.compute_pantsd_invalidation_globs sys_path buildroot bo
      = specInvalidationGlobs sys_path buildroot bo := by
  simp only [OptionsInitializer.compute_pantsd_invalidation_globs, specInvalidationGlobs]
  rw [foldl_invalidation_eq]
  simp only [orderedUpdate]
  rw [← List.foldl_append, ← dedupFirstSeen_eq_foldl]

/-- C7: `compute_pantsd_invalidation_globs` equals, for every build root,
ambient module search path and bootstrap view, the specification pipeline
`specInvalidationGlobs` — process the module search paths, then the extra
search paths, then the config file paths in order, drop each entry whose
lexical relativization is `"."` or begins with a parent traversal, let every
other entry contribute its relative path and the relative path plus `"/**"`,
append the fixed tail `"!*.pyc"`, `"!__pycache__/"`, `"requirements.txt"`,
`"3rdparty/**/requirements.txt"` and then the user's extra invalidation
globs, all deduplicated in first-seen order — and the returned sequence
contains each distinct string exactly once. -/
theorem compute_pantsd_invalidation_globs_claim :
    (∀ (sys_path : List String) (buildroot : String) (bo : OptionValueContainer),
      OptionsInitializer.compute_pantsd_invalidation_globs sys_path buildroot bo
        = specInvalidationGlobs sys_path buildroot bo)
    ∧ (∀ (sys_path : List String) (buildroot : String) (bo : OptionValueContainer),
      (OptionsInitializer.compute_pantsd_invalidation_globs sys_path buildroot bo).Nodup) := by
  refine ⟨compute_pantsd_eq_spec, ?_⟩
  intro sys_path buildroot bo
  rw [compute_pantsd_eq_spec]
  simp only [specInvalidationGlobs]
  exact nodup_dedupFirstSeen _

/-- C10: the "outside the build root" decision of
`compute_pantsd_invalidation_globs` is the string-prefix test
`glob_relpath.startswith("..")`: any entry whose relativized path starts with
the two characters `".."` contributes no invalidation globs — removing it
from the inputs leaves the output unchanged — even when the entry is inside
the build root because its first path component's name merely begins with
`".."` (e.g. `/r/..vendored` under build root `/r`, which relativizes to
`..vendored` and is a descendant of the build root by
`fast_relpath_optional`). -/
theorem compute_pantsd_dotdot_dropped (buildroot : String) (bo : OptionValueContainer)
    (pre post : List String) (g : String)
    (h : strStartsWith ".." (relpath g buildroot) = true) :
    OptionsInitializer.compute_pantsd_invalidation_globs (pre ++ g :: post) buildroot bo
      = OptionsInitializer.compute_pantsd_invalidation_globs (pre ++ post) buildroot bo := by
  rw [compute_pantsd_eq_spec, compute_pantsd_eq_spec]
  simp only [specInvalidationGlobs]
  simp [List.flatMap_append, List.flatMap_cons, h, List.append_assoc]

/-- Witness for C10: `/r/..vendored` is inside build root `/r` (its
`fast_relpath_optional` is `some "..vendored"`, not `none`), its lexical
relativization starts with `".."`, and supplying it as a module search path
entry leaves the computed invalidation globs exactly as if it were absent. -/
theorem compute_pantsd_dotdot_dropped_witness :
    strStartsWith ".." (relpath "/r/..vendored" "/r") = true
    ∧ fast_relpath_optional "/r/..vendored" "/r" = some "..vendored"
    ∧ OptionsInitializer.compute_pantsd_invalidation_globs ["/r/..vendored"] "/r" {}
        = OptionsInitializer.compute_pantsd_invalidation_globs [] "/r" {} :=
  ⟨by decide, by decide,
    compute_pantsd_dotdot_dropped "/r" {} [] [] "/r/..vendored" (by decide)⟩

/-- C1 (counterexample): with a cached build configuration, a bootstrap input
carrying one unrecognized flag and `raise_ = false`, the claim says the call
"raises no error, and completes with no Options value produced"; in the code
the suppressed exception leaves the local `options` unassigned, so the final
`return build_config, options` raises `UnboundLocalError` — the call does
raise an error. -/
theorem create_with_build_config_nonstrict_counterexample :
    OptionsInitializer.create envW1 obW1 bcW1
        = ([Event.collectedScopes, Event.fullParse], .error (.unknownFlags ["--bad-flag"]))
    ∧ (OptionsInitializer.create_with_build_config cenvW1 envW1 obW1 false stW1).2.2
        = .error (.unboundLocalError "options") := by
  exact ⟨by decide, by decide⟩

/-- C1 (amended): for every bootstrap input on which `create` raises an
unknown-flag error and on which the recovery rebuild (with `args` replaced by
`"dummy_first_arg"`) succeeds, `create_with_build_config` generates exactly
one diagnostic; with `raise_ = true` it then re-raises the original
`UnknownFlagsError`; with `raise_ = false` it suppresses the original error
but — since no Options value was produced — fails with an
`UnboundLocalError` at its final `return`. -/
theorem create_with_build_config_unknown_flags
    (cenv : CacheEnv) (env : CreateEnv) (ob : OptionsBootstrapper)
    (st : CacheState) (bc : BuildConfiguration) (fl : List String)
    (evs1 evs2 : List Event) (opts2 : Options)
    (hcache : st.cached = some bc)
    (hfail : OptionsInitializer.create env ob bc = (evs1, .error (.unknownFlags fl)))
    (hclean : OptionsInitializer.create env { ob with args := ["dummy_first_arg"] } bc
        = (evs2, .ok opts2)) :
    OptionsInitializer.create_with_build_config cenv env ob true st
        = (st, evs1 ++ evs2 ++ [Event.diagnostic], .error (.unknownFlags fl))
    ∧ OptionsInitializer.create_with_build_config cenv env ob false st
        = (st, evs1 ++ evs2 ++ [Event.diagnostic], .error (.unboundLocalError "options"))
    ∧ (evs1 ++ evs2 ++ [Event.diagnostic]).count Event.diagnostic = 1 := by
  have hget := get_of_cached cenv ob st bc hcache
  have h1 : Event.diagnostic ∉ evs1 := by
    have hnd := create_no_diagnostic env ob bc
    rw [hfail] at hnd
    exact hnd
  have h2 : Event.diagnostic ∉ evs2 := by
    have hnd := create_no_diagnostic env { ob with args := ["dummy_first_arg"] } bc
    rw [hclean] at hnd
    exact hnd
  refine ⟨?_, ?_, ?_⟩
  · simp only [OptionsInitializer.create_with_build_config, hget,
      OptionsInitializer.handle_unknown_flags, hfail, hclean]
    simp
  · simp only [OptionsInitializer.create_with_build_config, hget,
      OptionsInitializer.handle_unknown_flags, hfail, hclean]
    simp
  · simp [List.count_append, List.count_eq_zero.mpr h1, List.count_eq_zero.mpr h2]

/-- Witness for C1's amended theorem at the concrete unknown-flag input. -/
theorem create_with_build_config_unknown_flags_witness :
    (stW1.cached = some bcW1)
    ∧ OptionsInitializer.create envW1 obW1 bcW1
        = ([Event.collectedScopes, Event.fullParse], .error (.unknownFlags ["--bad-flag"]))
    ∧ OptionsInitializer.create envW1 { obW1 with args := ["dummy_first_arg"] } bcW1
        = ([Event.collectedScopes, Event.fullParse, Event.validated], .ok {})
    ∧ OptionsInitializer.create_with_build_config cenvW1 envW1 obW1 true stW1
        = (stW1,
            [Event.collectedScopes, Event.fullParse]
              ++ [Event.collectedScopes, Event.fullParse, Event.validated]
              ++ [Event.diagnostic],
            .error (.unknownFlags ["--bad-flag"])) :=
  ⟨rfl, by decide, by decide,
    (create_with_build_config_unknown_flags cenvW1 envW1 obW1 stW1 bcW1 ["--bad-flag"]
        [Event.collectedScopes, Event.fullParse]
        [Event.collectedScopes, Event.fullParse, Event.validated] {}
        rfl (by decide) (by decide)).1⟩
